import Mathlib

/-!
Shallow embedding of the agentic maintenance-copilot subsystem of the
Server-Failure-Prediction-System repository, together with theorems that
settle the specification claims about it.

Embedded modules:
* `src/ml/agent/copilot.py` — events, actions, `AgentMemory`, the
  `MaintenanceCopilot` reasoning rules and the `act` executor wrapper;
* `src/ml/agent/event_monitor.py` — the drift ingestion gate
  `EventMonitor.on_drift_detected`;
* `src/backend/app/services/webhook_service.py` — the webhook delivery
  retry loop `WebhookService._deliver` and the `get_deliveries` query.

Modelling conventions:
* `datetime` values are seconds since an arbitrary epoch, as `Int`;
  `timedelta(hours=h)` is `h * 3600` seconds, and each function that reads
  `datetime.utcnow()` takes the current time as an explicit `now` argument.
* Python `float` scores are embedded as `ℚ`; every comparison the claims
  depend on (`0.9 >= 0.7`, `0.2 < 0.7`, `min(12 * 0.8, 24) <= 24`,
  `0.9 >= 0.5`) has the same truth value over `ℚ` as over IEEE doubles.
* the dynamic `data`/`details` dicts are embedded as structures of optional
  fields covering exactly the keys the source reads or writes; `d.get(k, v)`
  becomes `(field).getD v`.
* Python's negative-index slice `xs[-k:]` (used by `AgentMemory.add_event`
  and `WebhookService.get_deliveries`) is embedded by `pySliceLast`,
  including the `k = 0` corner where `xs[-0:]` is the whole list.
* fallible code (an executor that raises, an out-of-range list index) is
  embedded with `Except`.
-/

deriving instance DecidableEq for Except

namespace Copilot

/-- Python list slice `xs[-k:]` for a non-negative `k`: the last `k`
elements when `1 ≤ k ≤ len`, the whole list when `k = 0` (since `-0 = 0`,
`xs[-0:] = xs[0:] = xs`) or when `k ≥ len`. -/
def pySliceLast (k : Nat) (xs : List α) : List α :=
  if k = 0 then xs else xs.drop (xs.length - k)

/-- EventType enum from `copilot.py`. -/
inductive EventType
  | anomalyDetected
  | driftDetected
  | rulCritical
  | alertTriggered
  | maintenanceDue
  | logPatternDetected
deriving DecidableEq, Repr

/-- ActionType enum from `copilot.py`. -/
inductive ActionType
  | createIncident
  | suggestAction
  | createTicket
  | sendNotification
  | scheduleMaintenance
  | escalate
deriving DecidableEq, Repr

/-- Priority enum from `copilot.py`. -/
inductive Priority
  | low
  | medium
  | high
  | critical
deriving DecidableEq, Repr

/-- Keys of the dynamic `Event.data` dict that the source reads
(`anomaly_score`, `risk_level`, `explanation["top_features"]` feature
names, `drift_score`, `drifted_features`, `rul_hours`, `confidence`).
An absent key is `none` / `[]`, matching `dict.get` defaults at use
sites. -/
structure EventData where
  anomaly_score : Option ℚ := none
  risk_level : Option String := none
  explanation_top_features : List String := []
  drift_score : Option ℚ := none
  drifted_features : List String := []
  rul_hours : Option ℚ := none
  confidence : Option ℚ := none
deriving DecidableEq, Repr

/-- Event dataclass from `copilot.py`. -/
structure Event where
  id : String
  type : EventType
  tenant_id : String
  asset_id : String
  timestamp : Int
  data : EventData
  severity : String := "info"
  processed : Bool := false
deriving DecidableEq, Repr

/-- Keys of the dynamic `Action.details` dict written by the reasoning
rules in `copilot.py`. The Python keys `type` (maintenance type) and
`priority` (ticket priority string) are renamed `maintenance_type` and
`ticket_priority` to avoid clashing with the `Action` fields. -/
structure ActionDetails where
  full_description : Option String := none
  root_cause : Option String := none
  suggested_actions : List String := []
  top_features : List String := []
  channels : List String := []
  action : Option String := none
  drift_score : Option ℚ := none
  affected_features : List String := []
  recommendation : Option String := none
  rul_hours : Option ℚ := none
  urgency : Option String := none
  maintenance_type : Option String := none
  deadline_hours : Option ℚ := none
  system : Option String := none
  project : Option String := none
  issue_type : Option String := none
  description : Option String := none
  ticket_priority : Option String := none
  event_count : Option Nat := none
deriving DecidableEq, Repr

/-- Result dict returned by an action executor: a `status` field plus, for
the error case produced by `act`'s exception handler, the `error`
message. -/
structure ActResult where
  status : String
  error : Option String := none
deriving DecidableEq, Repr

/-- Action dataclass from `copilot.py`. -/
structure Action where
  id : String
  type : ActionType
  priority : Priority
  tenant_id : String
  asset_id : String
  description : String
  details : ActionDetails
  created_at : Int := 0
  executed : Bool := false
  result : Option ActResult := none
deriving DecidableEq, Repr

/-- Incident dataclass from `copilot.py`. -/
structure Incident where
  id : String
  tenant_id : String
  asset_id : String
  title : String
  description : String
  severity : Priority
  root_cause_analysis : String
  suggested_actions : List String
  created_at : Int
  related_events : List String
  status : String := "open"
  ticket_id : Option String := none
deriving DecidableEq, Repr

/-- AgentMemory from `copilot.py`. The `incidents` dict is embedded as an
insertion-ordered association list (Python dicts preserve insertion
order); `asset_context` is likewise an association list of string
key-value contexts. -/
structure AgentMemory where
  max_events : Nat := 1000
  events : List Event := []
  incidents : List (String × Incident) := []
  asset_context : List (String × List (String × String)) := []
  action_history : List Action := []
deriving DecidableEq, Repr

/-- AgentMemory.add_event: append, then truncate with the Python slice
`self.events[-self.max_events:]` whenever the length exceeds
`max_events`. -/
def add_event (m : AgentMemory) (e : Event) : AgentMemory :=
  let es := m.events ++ [e]
  if m.max_events < es.length then
    { m with events := pySliceLast m.max_events es }
  else
    { m with events := es }

/-- Folding `add_event` over a list of events, i.e. a sequence of
`add_event` calls in order. -/
def add_events (m : AgentMemory) (es : List Event) : AgentMemory :=
  es.foldl add_event m

/-- AgentMemory.get_recent_events: events of the tenant whose timestamp is
within the last `hours` hours before `now`, optionally filtered by asset
and event type. -/
def get_recent_events (m : AgentMemory) (tenant_id : String)
    (asset_id : Option String) (event_type : Option EventType)
    (hours : Int) (now : Int) : List Event :=
  let cutoff := now - hours * 3600
  m.events.filter fun e =>
    e.tenant_id == tenant_id
      && decide (cutoff ≤ e.timestamp)
      && (match asset_id with
          | none => true
          | some a => e.asset_id == a)
      && (match event_type with
          | none => true
          | some t => e.type == t)

/-- AgentMemory.add_incident: dict assignment `incidents[inc.id] = inc`,
replacing in place when the key exists, appending otherwise. -/
def add_incident (m : AgentMemory) (inc : Incident) : AgentMemory :=
  if m.incidents.any (fun p => p.1 == inc.id) then
    { m with incidents := m.incidents.map fun p =>
        if p.1 == inc.id then (p.1, inc) else p }
  else
    { m with incidents := m.incidents ++ [(inc.id, inc)] }

/-- AgentMemory.get_similar_incidents: incidents of the (tenant, asset)
pair, in insertion order, truncated to `limit` by the slice `[:limit]`. -/
def get_similar_incidents (m : AgentMemory) (tenant_id : String)
    (asset_id : String) (limit : Nat) : List Incident :=
  (((m.incidents.map Prod.snd).filter fun inc =>
      inc.tenant_id == tenant_id && inc.asset_id == asset_id).take limit)

/-- AgentMemory.get_asset_context. -/
def get_asset_context (m : AgentMemory) (asset_id : String) :
    List (String × String) :=
  match m.asset_context.lookup asset_id with
  | some ctx => ctx
  | none => []

/-- MaintenanceCopilot.anomaly_threshold, set to `0.7` in `__init__`. -/
def anomaly_threshold : ℚ := 7 / 10

/-- MaintenanceCopilot.rul_critical_hours, set to `24` in `__init__`. -/
def rul_critical_hours : ℚ := 24

/-- MaintenanceCopilot.escalation_threshold, set to `3` in `__init__`. -/
def escalation_threshold : Nat := 3

/-- MaintenanceCopilot._determine_priority: base priority from the event
severity, overridden to critical when at least 3 of the recent events are
critical (the `3` here is a literal in the source, independent of
`escalation_threshold`). -/
def determine_priority (e : Event) (recent_events : List Event) : Priority :=
  let base : Priority :=
    if e.severity == "critical" then .critical
    else if e.severity == "warning" then .high
    else .medium
  let critical_count := (recent_events.filter fun x => x.severity == "critical").length
  if 3 ≤ critical_count then .critical else base

/-- MaintenanceCopilot._should_escalate: at least `escalation_threshold`
critical-severity events among the recent events. -/
def should_escalate (recent_events : List Event) : Bool :=
  decide (escalation_threshold ≤
    (recent_events.filter fun e => e.severity == "critical").length)

/-- Count of critical-severity events in the 24h (tenant, asset) window
that `reason` computes for an event — the quantity `_should_escalate` and
the `critical_count` of `_determine_priority` are applied to. -/
def crit_window_count (m : AgentMemory) (e : Event) (now : Int) : Nat :=
  ((get_recent_events m e.tenant_id (some e.asset_id) none 24 now).filter
    fun x => x.severity == "critical").length

/-- IncidentDesc is the dict returned by
`MaintenanceCopilot._generate_incident_description` (the template path,
used when no LLM provider is configured — `MaintenanceCopilot.__init__`
defaults all providers to `None`). Numeric `.2f`/timestamp formatting of
the Python f-strings is rendered via `toString`. -/
structure IncidentDesc where
  title : String
  description : String
  root_cause : String
  actions : List String
deriving DecidableEq, Repr

/-- MaintenanceCopilot._generate_incident_description, template path. -/
def generate_incident_description (e : Event) : IncidentDesc :=
  let top := e.data.explanation_top_features
  let feature_desc :=
    if top.isEmpty then ""
    else "Contributing factors: " ++ String.intercalate ", " (top.take 3)
  { title := "Anomaly detected on asset " ++ e.asset_id
    description :=
      "An anomaly was detected with score "
        ++ toString (e.data.anomaly_score.getD 0) ++ ". Risk Level: "
        ++ (e.data.risk_level.getD "unknown") ++ ". " ++ feature_desc
        ++ " Please investigate and take appropriate action."
    root_cause :=
      "Analysis indicates the primary contributing factors are: "
        ++ (if top.isEmpty then "undetermined"
            else String.intercalate ", " (top.take 3)) ++ "."
    actions :=
      ["Review recent operational changes",
       "Check sensor calibration status",
       "Compare with historical baseline",
       "Inspect physical components if accessible"] }

/-- MaintenanceCopilot._generate_maintenance_recommendation, template
path. -/
def generate_maintenance_recommendation (e : Event) : String :=
  let rul := e.data.rul_hours.getD 0
  "Based on current predictions, this asset has approximately "
    ++ toString rul ++ " hours of remaining useful life. "
    ++ "Recommend scheduling preventive maintenance within the next "
    ++ toString (min (rul * (1 / 2)) 24)
    ++ " hours to avoid unplanned downtime."

/-- MaintenanceCopilot._reason_anomaly. The `now` argument stands for the
`datetime.utcnow().timestamp()` reads used to mint action ids. -/
def reason_anomaly (e : Event) (priority : Priority)
    (_similar_incidents : List Incident) (now : Int) : List Action :=
  let score := e.data.anomaly_score.getD 0
  let risk := e.data.risk_level.getD "normal"
  if decide (anomaly_threshold ≤ score) || risk == "warning" || risk == "critical" then
    let incident_desc := generate_incident_description e
    [{ id := "incident_" ++ toString now
       type := .createIncident
       priority := priority
       tenant_id := e.tenant_id
       asset_id := e.asset_id
       description := incident_desc.title
       details := { full_description := some incident_desc.description
                    root_cause := some incident_desc.root_cause
                    suggested_actions := incident_desc.actions
                    top_features := e.data.explanation_top_features }
       created_at := now },
     { id := "notify_" ++ toString now
       type := .sendNotification
       priority := priority
       tenant_id := e.tenant_id
       asset_id := e.asset_id
       description := "Anomaly detected: " ++ incident_desc.title
       details := { channels := ["email", "slack"] }
       created_at := now }]
      ++ (if priority == .high || priority == .critical then
            [{ id := "ticket_" ++ toString now
               type := .createTicket
               priority := priority
               tenant_id := e.tenant_id
               asset_id := e.asset_id
               description := incident_desc.title
               details := { system := some "jira"
                            project := some "MAINT"
                            issue_type := some "Incident"
                            description := some incident_desc.description }
               created_at := now }]
          else [])
  else []

/-- MaintenanceCopilot._reason_drift. -/
def reason_drift (e : Event) (priority : Priority) (now : Int) : List Action :=
  let drift_score := e.data.drift_score.getD 0
  let features := e.data.drifted_features
  [{ id := "suggest_" ++ toString now
     type := .suggestAction
     priority := priority
     tenant_id := e.tenant_id
     asset_id := e.asset_id
     description := "Data drift detected - consider model retraining"
     details := { action := some "retrain_model"
                  drift_score := some drift_score
                  affected_features := features
                  recommendation := some
                    ("Feature distributions have shifted for: "
                      ++ String.intercalate ", " (features.take 5)
                      ++ ". Consider retraining the anomaly detection model.") }
     created_at := now }]

/-- MaintenanceCopilot._reason_critical_rul: the three unconditional
actions — incident at Critical, maintenance scheduling with deadline
`min(rul_hours * 0.8, 24)`, and a ticket at Critical. The `priority`
parameter of the source method is received but never read; every emitted
action hard-codes `Priority.CRITICAL`. -/
def reason_critical_rul (e : Event) (_priority : Priority) (now : Int) :
    List Action :=
  let rul_hours := e.data.rul_hours.getD 0
  let rec_ := generate_maintenance_recommendation e
  [{ id := "incident_" ++ toString now
     type := .createIncident
     priority := .critical
     tenant_id := e.tenant_id
     asset_id := e.asset_id
     description := "Critical: Only " ++ toString rul_hours
       ++ " hours of useful life remaining"
     details := { rul_hours := some rul_hours
                  recommendation := some rec_
                  urgency := some "immediate" }
     created_at := now },
   { id := "schedule_" ++ toString now
     type := .scheduleMaintenance
     priority := .critical
     tenant_id := e.tenant_id
     asset_id := e.asset_id
     description := "Schedule immediate maintenance"
     details := { maintenance_type := some "preventive"
                  deadline_hours := some (min (rul_hours * (8 / 10)) 24) }
     created_at := now },
   { id := "ticket_" ++ toString now
     type := .createTicket
     priority := .critical
     tenant_id := e.tenant_id
     asset_id := e.asset_id
     description := "URGENT: Asset requires immediate maintenance (RUL: "
       ++ toString rul_hours ++ "h)"
     details := { system := some "jira"
                  issue_type := some "Incident"
                  ticket_priority := some "Highest" }
     created_at := now }]

/-- MaintenanceCopilot._reason_maintenance. -/
def reason_maintenance (e : Event) (priority : Priority) (now : Int) :
    List Action :=
  let rul_hours := e.data.rul_hours.getD 100
  [{ id := "suggest_" ++ toString now
     type := .suggestAction
     priority := priority
     tenant_id := e.tenant_id
     asset_id := e.asset_id
     description := "Maintenance recommended within " ++ toString rul_hours
       ++ " hours"
     details := { action := some "schedule_maintenance"
                  rul_hours := some rul_hours
                  recommendation := some
                    ("Based on RUL prediction, plan maintenance within the next "
                      ++ toString rul_hours ++ " hours.") }
     created_at := now }]

/-- MaintenanceCopilot.reason: gather the 24h (tenant, asset) window and
similar incidents from memory, determine the priority, dispatch on the
event type, and append an Escalate action at Critical priority when
`_should_escalate` fires on the window. -/
def reason (m : AgentMemory) (e : Event) (now : Int) : List Action :=
  let recent_events := get_recent_events m e.tenant_id (some e.asset_id) none 24 now
  let similar_incidents := get_similar_incidents m e.tenant_id e.asset_id 5
  let priority := determine_priority e recent_events
  let base : List Action :=
    match e.type with
    | .anomalyDetected => reason_anomaly e priority similar_incidents now
    | .driftDetected => reason_drift e priority now
    | .rulCritical => reason_critical_rul e priority now
    | .maintenanceDue => reason_maintenance e priority now
    | _ => []
  base ++
    (if should_escalate recent_events then
      [{ id := "escalate_" ++ toString now
         type := .escalate
         priority := .critical
         tenant_id := e.tenant_id
         asset_id := e.asset_id
         description := "Multiple critical events detected - escalating to management"
         details := { event_count := some recent_events.length }
         created_at := now }]
     else [])

/-- Error result dict built by `act`'s exception handler:
`{"status": "error", "error": str(e)}`. -/
def error_result (msg : String) : ActResult :=
  { status := "error", error := some msg }

/-- MaintenanceCopilot.act. The `exec` argument is the outcome of the
dispatched executor call inside the `try` block (`_create_incident`,
`_create_ticket`, …, which with real providers may raise). On a normal
return the source sets `executed = True` and `result`, and appends the
action to `memory.action_history`; the `except` handler only sets
`result` to the error dict — it does not set `executed` and does not
append. Returns the updated action and memory. -/
def act (a : Action) (m : AgentMemory) (exec : Except String ActResult) :
    Action × AgentMemory :=
  match exec with
  | .ok r =>
    let a' := { a with executed := true, result := some r }
    (a', { m with action_history := m.action_history ++ [a'] })
  | .error msg =>
    let a' := { a with result := some (error_result msg) }
    (a', m)

end Copilot

namespace EventMonitor

/-- Entry of a `drifted_features` list handed to
`EventMonitor.on_drift_detected`: either a plain feature-name string or a
dict carrying a `feature` key (the two shapes the source distinguishes
with `isinstance(drifted[0], dict)`). -/
inductive DriftEntry
  | fstr (s : String)
  | fdict (feature : String)
deriving DecidableEq, Repr

/-- Python `f["feature"]` applied to a drifted-features entry: fine on a
dict entry, a TypeError on a plain string. -/
def entry_feature : DriftEntry → Except String String
  | .fdict f => .ok f
  | .fstr _ => .error "TypeError: string indices must be integers"

/-- Keys of the `drift_result` dict that `on_drift_detected` reads; an
absent key is `none`, matching the `dict.get` defaults. -/
structure DriftResult where
  overall_drift_score : Option ℚ := none
  drifted_features : Option (List DriftEntry) := none
deriving DecidableEq, Repr

/-- Arguments of the `copilot.observe_drift` call that
`on_drift_detected` forwards (the tenant/asset ids are passed through
unchanged and omitted here). -/
structure DriftForward where
  drift_score : ℚ
  drifted_features : List DriftEntry
deriving DecidableEq, Repr

/-- EventMonitor.drift_threshold default from `__init__`. -/
def drift_threshold_default : ℚ := 1 / 2

/-- EventMonitor.on_drift_detected: forward to `copilot.observe_drift`
when `drift_score >= drift_threshold or len(drifted) >= 2`. Inside the
forwarding branch the source evaluates `isinstance(drifted[0], dict)`,
which raises IndexError on an empty list; when the first entry is a dict
it maps every entry through `f["feature"]` (raising on non-dict entries),
otherwise it forwards the list unchanged. `.ok none` is the
without-effect return. -/
def on_drift_detected (drift_threshold : ℚ) (dr : DriftResult) :
    Except String (Option DriftForward) :=
  let drift_score := dr.overall_drift_score.getD 0
  let drifted := dr.drifted_features.getD []
  if decide (drift_threshold ≤ drift_score) || decide (2 ≤ drifted.length) then
    match drifted with
    | [] => .error "IndexError: list index out of range"
    | e0 :: _ =>
      match e0 with
      | .fdict _ =>
        (drifted.mapM entry_feature).map fun names =>
          some { drift_score := drift_score
                 drifted_features := names.map .fstr }
      | .fstr _ =>
        .ok (some { drift_score := drift_score, drifted_features := drifted })
  else
    .ok none

end EventMonitor

namespace Webhook

/-- WebhookConfig dataclass from `webhook_service.py`. -/
structure WebhookConfig where
  id : String
  url : String
  secret : Option String := none
  events : List String := []
  active : Bool := true
  headers : List (String × String) := []
  retry_count : Nat := 3
  retry_delay : Nat := 5
deriving DecidableEq, Repr

/-- WebhookDelivery dataclass from `webhook_service.py`. -/
structure WebhookDelivery where
  id : String
  webhook_id : String
  event_type : String
  status : String
  attempts : Nat := 0
  response_code : Option Nat := none
  response_body : Option String := none
  created_at : Int := 0
  delivered_at : Option Int := none
deriving DecidableEq, Repr

/-- Outcome of one `client.post` call: an HTTP response (status code and
body text) or a raised exception. -/
inductive HttpResult
  | resp (code : Nat) (body : String)
  | exn (msg : String)
deriving DecidableEq, Repr

/-- httpx `Response.is_success`: status code in [200, 300). -/
def isSuccessCode (code : Nat) : Bool :=
  200 ≤ code && code < 300

/-- Attempt loop of `WebhookService._deliver`, i.e.
`for attempt in range(webhook.retry_count)` with `attempt` the current
index and `remaining` the iterations left. `resp i` is the outcome of the
POST on attempt index `i`. Success and client-error (< 500) responses
break out of the loop; server errors (≥ 500) sleep and retry; a raised
exception records status `failed` and falls through to the next
iteration. -/
def deliver_loop (resp : Nat → HttpResult) (now : Int) :
    Nat → Nat → WebhookDelivery → WebhookDelivery
  | _, 0, d => d
  | attempt, remaining + 1, d =>
    let d := { d with attempts := attempt + 1 }
    match resp attempt with
    | .exn msg =>
      deliver_loop resp now (attempt + 1) remaining
        { d with status := "failed", response_body := some msg }
    | .resp code body =>
      let d := { d with response_code := some code
                        response_body := some (body.take 500) }
      if isSuccessCode code then
        { d with status := "success", delivered_at := some now }
      else if 500 ≤ code then
        deliver_loop resp now (attempt + 1) remaining d
      else
        { d with status := "failed" }

/-- WebhookService._deliver: build the pending delivery record, short out
with status `mocked` when no HTTP client is available, otherwise run the
attempt loop and finally turn a still-`pending` status into `failed`;
the record is appended to `self.deliveries` in every path. Returns the
record together with the updated deliveries log. -/
def deliver (w : WebhookConfig) (resp : Nat → HttpResult)
    (has_client : Bool) (deliveries : List WebhookDelivery)
    (event_type : String) (now : Int) :
    WebhookDelivery × List WebhookDelivery :=
  let init : WebhookDelivery :=
    { id := "del_" ++ toString now
      webhook_id := w.id
      event_type := event_type
      status := "pending"
      created_at := now }
  if !has_client then
    let d := { init with status := "mocked" }
    (d, deliveries ++ [d])
  else
    let looped := deliver_loop resp now 0 w.retry_count init
    let d := if looped.status == "pending" then
               { looped with status := "failed" }
             else looped
    (d, deliveries ++ [d])

/-- WebhookService.get_deliveries: filter by `webhook_id` and `status`
when they are truthy (Python `if webhook_id:` — `None` and the empty
string both skip the filter), then slice `results[-limit:]`. -/
def get_deliveries (deliveries : List WebhookDelivery)
    (webhook_id : Option String) (status : Option String) (limit : Nat) :
    List WebhookDelivery :=
  let results :=
    match webhook_id with
    | some w => if w ≠ "" then deliveries.filter (fun d => d.webhook_id == w)
                else deliveries
    | none => deliveries
  let results :=
    match status with
    | some s => if s ≠ "" then results.filter (fun d => d.status == s)
                else results
    | none => results
  Copilot.pySliceLast limit results

/-- Specification predicate for the amended delivery-audit claim: a
record matches the supplied (non-empty) filters. -/
def matches_delivery (webhook_id status : Option String)
    (d : WebhookDelivery) : Bool :=
  (match webhook_id with
   | none => true
   | some w => d.webhook_id == w)
    && (match status with
        | none => true
        | some s => d.status == s)

end Webhook

open Copilot EventMonitor Webhook

/-! ## Helper lemmas -/

/-- One `add_event` run leaves `events` equal to a `drop`-suffix of all
events inserted so far, for any positive capacity. -/
theorem add_events_eq_drop (K : Nat) (es : List Event) :
    ∀ (m : AgentMemory), m.max_events = K + 1 → m.events.length ≤ K + 1 →
      (add_events m es).events =
        (m.events ++ es).drop ((m.events ++ es).length - (K + 1)) := by
  induction es with
  | nil =>
    intro m _ hlen
    simp only [add_events, List.foldl_nil, List.append_nil]
    rw [Nat.sub_eq_zero_of_le (by simpa using hlen), List.drop_zero]
  | cons e es ih =>
    intro m hmax hlen
    show (add_events (add_event m e) es).events = _
    by_cases hover : m.events.length = K + 1
    · have h1 : add_event m e = { m with events := (m.events ++ [e]).drop 1 } := by
        simp only [add_event, pySliceLast, hmax]
        rw [if_pos (by simp [hover]), if_neg (by omega)]
        congr 2
        simp [hover]
      rw [h1]
      rw [ih _ (by simpa using hmax) (by simp [hover])]
      rw [← List.drop_append_of_le_length (by simp)]
      rw [List.drop_drop]
      have hll : (m.events ++ [e]) ++ es = m.events ++ e :: es := by simp
      rw [hll]
      congr 1
      simp only [List.length_drop, List.length_append, List.length_cons,
        List.length_singleton]
      omega
    · have h1 : add_event m e = { m with events := m.events ++ [e] } := by
        simp only [add_event]
        rw [if_neg (by simp [hmax]; omega)]
      rw [h1]
      rw [ih _ (by simpa using hmax) (by simp; omega)]
      have hll : (m.events ++ [e]) ++ es = m.events ++ e :: es := by simp
      simp only [hll]

/-- None of the event-type-specific reasoning rules ever emits an
Escalate action; Escalate can only come from the escalation check at the
end of `reason`. -/
theorem reason_base_no_escalate (ev : Event) (p : Priority)
    (sim : List Incident) (now : Int) :
    ((match ev.type with
      | EventType.anomalyDetected => reason_anomaly ev p sim now
      | EventType.driftDetected => reason_drift ev p now
      | EventType.rulCritical => reason_critical_rul ev p now
      | EventType.maintenanceDue => reason_maintenance ev p now
      | _ => ([] : List Action)).any
        fun a => a.type == ActionType.escalate) = false := by
  cases ev.type <;>
    simp [reason_anomaly, reason_drift, reason_critical_rul,
      reason_maintenance]
  rintro x - (rfl | rfl | ⟨-, rfl⟩) <;> simp

/-! ## Claim C1 -/

/-- C1 (amended): `reason` emits an Escalate action exactly when the
critical-severity count of the 24h (tenant, asset) window it reads from
memory — prior events plus the observed event itself, which `observe`
already appended — reaches `escalation_threshold = 3`; every Escalate it
emits is at Critical priority. So 4 prior in-window critical events
always produce an Escalate, and 2 prior critical events produce none iff
the observed event does not itself put the count at 3 (in particular iff
it is not critical-severity when it sits in memory). -/
theorem reason_escalate_iff (m : AgentMemory) (ev : Event) (now : Int) :
    ((reason m ev now).any fun a => a.type == ActionType.escalate)
      = decide (escalation_threshold ≤ crit_window_count m ev now)
    ∧ (((reason m ev now).filter fun a => a.type == ActionType.escalate).all
        fun a => a.priority == Priority.critical) = true := by
  constructor
  · simp only [reason, List.any_append]
    rw [reason_base_no_escalate]
    rw [Bool.false_or]
    by_cases h : should_escalate
        (get_recent_events m ev.tenant_id (some ev.asset_id) none 24 now) = true
    · rw [if_pos h]
      simp only [List.any_cons, List.any_nil, Bool.or_false]
      have : decide (escalation_threshold ≤ crit_window_count m ev now) = true := by
        simpa [should_escalate, crit_window_count] using h
      rw [this]
      rfl
    · rw [if_neg h]
      simp only [List.any_nil]
      have : decide (escalation_threshold ≤ crit_window_count m ev now) = false := by
        simpa [should_escalate, crit_window_count] using h
      rw [this]
  · rw [List.all_eq_true]
    intro a ha
    rw [List.mem_filter] at ha
    obtain ⟨hmem, htype⟩ := ha
    simp only [reason, List.mem_append] at hmem
    rcases hmem with hb | he
    · exfalso
      have hno := reason_base_no_escalate ev
        (determine_priority ev
          (get_recent_events m ev.tenant_id (some ev.asset_id) none 24 now))
        (get_similar_incidents m ev.tenant_id ev.asset_id 5) now
      rw [List.any_eq_false] at hno
      exact hno a hb htype
    · by_cases h : should_escalate
          (get_recent_events m ev.tenant_id (some ev.asset_id) none 24 now) = true
      · rw [if_pos h] at he
        simp only [List.mem_singleton] at he
        subst he
        rfl
      · rw [if_neg h] at he
        simp at he

/-- First prior critical event of the C1 counterexample. -/
def cexPrior1 : Event :=
  { id := "p1", type := .alertTriggered, tenant_id := "t", asset_id := "m1"
    timestamp := 90000, data := {}, severity := "critical" }

/-- Second prior critical event of the C1 counterexample. -/
def cexPrior2 : Event :=
  { id := "p2", type := .alertTriggered, tenant_id := "t", asset_id := "m1"
    timestamp := 95000, data := {}, severity := "critical" }

/-- The observed critical event of the C1 counterexample. -/
def cexCritEvent : Event :=
  { id := "e3", type := .alertTriggered, tenant_id := "t", asset_id := "m1"
    timestamp := 100000, data := {}, severity := "critical" }

/-- Memory of the C1 counterexample: two prior critical events for the
(tenant, asset) pair plus the observed event itself, which `observe`
appended before `reason` runs. -/
def cexMemC1 : AgentMemory := { events := [cexPrior1, cexPrior2, cexCritEvent] }

/-- C1 counterexample: the memory holds only 2 critical events PRIOR to
the observed event (both within the 24h window at `now = 100000`), yet
`reason` on a critical-severity observed event DOES emit an Escalate
action, because the event itself — already in memory — makes the window
count 3. This refutes "with only 2 prior critical events the returned
list never includes an Escalate action". -/
theorem reason_two_prior_critical_cex :
    (([cexPrior1, cexPrior2].filter fun e => e.severity == "critical").length = 2)
    ∧ cexMemC1.events = [cexPrior1, cexPrior2, cexCritEvent]
    ∧ ((reason cexMemC1 cexCritEvent 100000).any
        fun a => a.type == ActionType.escalate) = true := by
  refine ⟨by decide, rfl, by decide⟩

/-! ## Claim C2 -/

/-- Concrete action used in the C2 counterexample. -/
def cexAction : Action :=
  { id := "a1", type := .createTicket, priority := .high, tenant_id := "t"
    asset_id := "m1", description := "create jira ticket", details := {} }

/-- C2 counterexample: when the dispatched executor raises, `act` leaves
`executed = false` (not true), sets `result` to the error dict, and does
NOT append the action to `memory.action_history` — refuting both the
"whether returned normally or raised" clause and the
"`result` set iff `executed`" invariant (here `result` is set while
`executed` is false). -/
theorem act_error_path_cex :
    (act cexAction {} (Except.error "boom")).1.executed = false
    ∧ (act cexAction {} (Except.error "boom")).1.result
        = some (error_result "boom")
    ∧ (act cexAction {} (Except.error "boom")).2.action_history = [] :=
  ⟨rfl, rfl, rfl⟩

/-- C2 (amended): after `act(a)` the action's `result` is always set; its
`executed` flag becomes true exactly when the dispatched executor
returned normally (otherwise it keeps its previous value, false for a
fresh action), and the action is appended to `memory.action_history`
exactly on that normal path. Hence "`result` set iff `executed`" holds
only when executors do not raise. -/
theorem act_result_executed (a : Action) (m : AgentMemory)
    (exec : Except String ActResult) :
    ((act a m exec).1.result).isSome = true
    ∧ (act a m exec).1.executed =
        (match exec with | .ok _ => true | .error _ => a.executed)
    ∧ (act a m exec).2.action_history =
        (match exec with
         | .ok _ => m.action_history ++ [(act a m exec).1]
         | .error _ => m.action_history) := by
  cases exec <;> exact ⟨rfl, rfl, rfl⟩

/-! ## Claim C5 -/

/-- Zero-capacity memory used in the C5 counterexample. -/
def cexMem0 : AgentMemory := { max_events := 0 }

/-- Concrete event used in the C5 counterexample. -/
def cexEvent5 : Event :=
  { id := "e1", type := .alertTriggered, tenant_id := "t", asset_id := "m1"
    timestamp := 0, data := {} }

/-- C5 counterexample: with `max_events = 0` the truncation slice is
`events[-0:]`, which is the whole list, so after one `add_event` the
buffer holds 1 event, not `min(1, 0) = 0`. -/
theorem add_event_zero_capacity_cex :
    (add_events cexMem0 [cexEvent5]).events.length ≠
      min ([cexEvent5] : List Event).length cexMem0.max_events
    ∧ (add_events cexMem0 [cexEvent5]).events = [cexEvent5] := by
  exact ⟨by decide, rfl⟩

/-- C5 (amended): for every positive capacity `K + 1` and every sequence
of `add_event` calls on a fresh `AgentMemory`, the buffer ends up holding
exactly the last `min(N, K + 1)` inserted events in insertion order
(stated as the `drop`-suffix of the insertion sequence), and its length is
`min(N, K + 1)`. (With `max_events = 0` the Python slice `events[-0:]`
keeps everything, see the counterexample.) -/
theorem add_event_bounded (K : Nat) (es : List Event) :
    (add_events ({ max_events := K + 1 } : AgentMemory) es).events
        = es.drop (es.length - (K + 1))
    ∧ (add_events ({ max_events := K + 1 } : AgentMemory) es).events.length
        = min es.length (K + 1) := by
  have h := add_events_eq_drop K es ({ max_events := K + 1 } : AgentMemory)
    rfl (by simp)
  simp only [List.nil_append] at h
  refine ⟨h, ?_⟩
  rw [h, List.length_drop]
  omega

/-! ## Claim C7 -/

/-- C7: `reason` on an AnomalyDetected event with `anomaly_score = 0.9`
and `risk_level = critical` (event severity critical, as `observe_anomaly`
sets `severity = risk_level`) always returns a list containing a
CreateIncident action and a SendNotification action, and — the priority
resolving to Critical — a CreateTicket action, for every memory state;
with `anomaly_score = 0.2` and `risk_level = normal` the returned list
never contains a CreateIncident action. -/
theorem reason_anomaly_gating (m : AgentMemory) (id1 id2 tid aid : String)
    (ts now : Int) :
    ((reason m { id := id1, type := .anomalyDetected, tenant_id := tid
                 asset_id := aid, timestamp := ts
                 data := { anomaly_score := some (9 / 10)
                           risk_level := some "critical" }
                 severity := "critical" } now).any
        fun a => a.type == ActionType.createIncident) = true
    ∧ ((reason m { id := id1, type := .anomalyDetected, tenant_id := tid
                   asset_id := aid, timestamp := ts
                   data := { anomaly_score := some (9 / 10)
                             risk_level := some "critical" }
                   severity := "critical" } now).any
        fun a => a.type == ActionType.sendNotification) = true
    ∧ ((reason m { id := id1, type := .anomalyDetected, tenant_id := tid
                   asset_id := aid, timestamp := ts
                   data := { anomaly_score := some (9 / 10)
                             risk_level := some "critical" }
                   severity := "critical" } now).any
        fun a => a.type == ActionType.createTicket) = true
    ∧ ((reason m { id := id2, type := .anomalyDetected, tenant_id := tid
                   asset_id := aid, timestamp := ts
                   data := { anomaly_score := some (2 / 10)
                             risk_level := some "normal" }
                   severity := "normal" } now).all
        fun a => a.type != ActionType.createIncident) = true := by
  refine ⟨?_, ?_, ?_, ?_⟩
  · simp [reason, reason_anomaly, determine_priority]
  · simp [reason, reason_anomaly, determine_priority]
  · simp [reason, reason_anomaly, determine_priority]
  · rw [List.all_eq_true]
    intro a ha
    simp only [reason, List.mem_append] at ha
    rcases ha with hb | he
    · rw [show reason_anomaly
          { id := id2, type := .anomalyDetected, tenant_id := tid
            asset_id := aid, timestamp := ts
            data := { anomaly_score := some (2 / 10)
                      risk_level := some "normal" }
            severity := "normal" } (determine_priority _ _)
          (get_similar_incidents m tid aid 5) now = [] from by
        simp [reason_anomaly, anomaly_threshold]
        norm_num] at hb
      simp at hb
    · split at he
      · simp only [List.mem_singleton] at he
        subst he
        rfl
      · simp at he

/-! ## Claim C8 -/

/-- C8: `reason` on an RulCritical event with `rul_hours = 12`, when the
24h window holds fewer than `escalation_threshold` critical events (so no
Escalate is appended), returns exactly three actions — CreateIncident,
ScheduleMaintenance, CreateTicket — all at Critical priority; the
ScheduleMaintenance deadline is `min(rul_hours * 0.8, 24)` hours, which
is at most 24; and the three (type, priority) pairs are emitted as the
first actions unconditionally for every RulCritical event. -/
theorem reason_rul_critical_twelve (m : AgentMemory)
    (id1 tid aid sev : String) (ts now : Int) (conf : Option ℚ)
    (h : crit_window_count m
        { id := id1, type := .rulCritical, tenant_id := tid, asset_id := aid
          timestamp := ts, data := { rul_hours := some 12, confidence := conf }
          severity := sev } now < escalation_threshold) :
    ((reason m { id := id1, type := .rulCritical, tenant_id := tid
                 asset_id := aid, timestamp := ts
                 data := { rul_hours := some 12, confidence := conf }
                 severity := sev } now).map fun a => (a.type, a.priority))
        = [(ActionType.createIncident, Priority.critical),
           (ActionType.scheduleMaintenance, Priority.critical),
           (ActionType.createTicket, Priority.critical)]
    ∧ ((reason m { id := id1, type := .rulCritical, tenant_id := tid
                   asset_id := aid, timestamp := ts
                   data := { rul_hours := some 12, confidence := conf }
                   severity := sev } now).map fun a => a.details.deadline_hours)
        = [none, some (min ((12 : ℚ) * (8 / 10)) 24), none]
    ∧ min ((12 : ℚ) * (8 / 10)) 24 ≤ 24
    ∧ ∀ (m' : AgentMemory) (ev' : Event) (now' : Int),
        ev'.type = EventType.rulCritical →
        ((reason m' ev' now').map fun a => (a.type, a.priority)).take 3
          = [(ActionType.createIncident, Priority.critical),
             (ActionType.scheduleMaintenance, Priority.critical),
             (ActionType.createTicket, Priority.critical)] := by
  have hesc : should_escalate
      (get_recent_events m tid (some aid) none 24 now) = false := by
    simp only [should_escalate, decide_eq_false_iff_not, not_le]
    simpa [crit_window_count] using h
  refine ⟨?_, ?_, min_le_right _ _, ?_⟩
  · simp [reason, reason_critical_rul, hesc]
  · simp [reason, reason_critical_rul, hesc]
  · intro m' ev' now' htype
    simp only [reason, htype, List.map_append]
    rw [List.take_left' (by simp [reason_critical_rul])]
    simp [reason_critical_rul]

/-- C8 witness: an empty memory has no critical events in the window, and
`reason` on the concrete RulCritical event with `rul_hours = 12` yields
exactly the three Critical actions. -/
theorem reason_rul_critical_twelve_witness :
    ((reason ({} : AgentMemory)
        { id := "r1", type := .rulCritical, tenant_id := "t"
          asset_id := "m1", timestamp := 0
          data := { rul_hours := some 12, confidence := none }
          severity := "warning" } 0).map fun a => (a.type, a.priority))
      = [(ActionType.createIncident, Priority.critical),
         (ActionType.scheduleMaintenance, Priority.critical),
         (ActionType.createTicket, Priority.critical)] :=
  (reason_rul_critical_twelve {} "r1" "t" "m1" "warning" 0 0 none
    (by decide)).1

/-! ## Claim C6 -/

/-- C6: every event returned by `get_recent_events` for tenant A has
`tenant_id = A`, for every choice of the optional asset, event-type and
hours arguments; likewise every incident returned by
`get_similar_incidents` for tenant A belongs to tenant A. In particular
no event or incident of a distinct tenant B is ever visible. -/
theorem memory_tenant_isolation (m : AgentMemory) (tenant_id : String)
    (asset_id : Option String) (event_type : Option EventType)
    (hours now : Int) (aid : String) (limit : Nat) :
    ((get_recent_events m tenant_id asset_id event_type hours now).all
        fun e => e.tenant_id == tenant_id) = true
    ∧ ((get_similar_incidents m tenant_id aid limit).all
        fun inc => inc.tenant_id == tenant_id) = true := by
  constructor
  · rw [List.all_eq_true]
    intro e he
    simp only [get_recent_events, List.mem_filter, Bool.and_eq_true] at he
    exact he.2.1.1.1
  · rw [List.all_eq_true]
    intro inc hinc
    have h2 := List.take_subset _ _ hinc
    simp only [get_similar_incidents] at h2 ⊢
    have h3 := (List.mem_filter.mp (by exact h2)).2
    exact (Bool.and_eq_true .. ▸ h3).1

/-! ## Claim C3 -/

/-- When every attempt gets an HTTP 503 response, the delivery loop never
changes the status and ends with `attempts` equal to the index of the
last attempt plus one. -/
theorem deliver_loop_all_503 (body : Nat → String) (now : Int) :
    ∀ (remaining attempt : Nat) (d : WebhookDelivery),
      (deliver_loop (fun i => .resp 503 (body i)) now attempt remaining d).status
          = d.status
      ∧ (deliver_loop (fun i => .resp 503 (body i)) now attempt remaining d).attempts
          = (match remaining with
             | 0 => d.attempts
             | _ + 1 => attempt + remaining) := by
  intro remaining
  induction remaining with
  | zero => intro attempt d; exact ⟨rfl, rfl⟩
  | succ r ih =>
    intro attempt d
    simp only [deliver_loop]
    rw [if_neg (by simp [isSuccessCode]), if_pos (by omega)]
    refine ⟨(ih (attempt + 1) _).1, ?_⟩
    rw [(ih (attempt + 1) _).2]
    cases r
    · rfl
    · simp
      omega

/-- The delivery loop performs at most `remaining` further attempts. -/
theorem deliver_loop_attempts_le (resp : Nat → HttpResult) (now : Int) :
    ∀ (remaining attempt : Nat) (d : WebhookDelivery),
      d.attempts ≤ attempt →
      (deliver_loop resp now attempt remaining d).attempts ≤ attempt + remaining := by
  intro remaining
  induction remaining with
  | zero => intro attempt d hd; simpa [deliver_loop] using hd
  | succ r ih =>
    intro attempt d hd
    simp only [deliver_loop]
    cases hresp : resp attempt with
    | exn msg =>
      dsimp only
      exact le_trans (ih (attempt + 1) _ (by simp)) (by omega)
    | resp code body =>
      dsimp only
      by_cases hs : isSuccessCode code = true
      · simp [hs]
      · rw [if_neg hs]
        by_cases h5 : 500 ≤ code
        · rw [if_pos h5]
          exact le_trans (ih (attempt + 1) _ (by simp)) (by omega)
        · rw [if_neg h5]
          simp

/-- The delivery loop leaves the status unchanged or terminal. -/
theorem deliver_loop_status_cases (resp : Nat → HttpResult) (now : Int) :
    ∀ (remaining attempt : Nat) (d : WebhookDelivery),
      (deliver_loop resp now attempt remaining d).status = d.status
      ∨ (deliver_loop resp now attempt remaining d).status = "success"
      ∨ (deliver_loop resp now attempt remaining d).status = "failed" := by
  intro remaining
  induction remaining with
  | zero => intro attempt d; exact Or.inl rfl
  | succ r ih =>
    intro attempt d
    simp only [deliver_loop]
    cases hresp : resp attempt with
    | exn msg =>
      dsimp only
      rcases ih (attempt + 1)
          { d with attempts := attempt + 1, status := "failed"
                   response_body := some msg } with h | h | h
      · exact Or.inr (Or.inr h)
      · exact Or.inr (Or.inl h)
      · exact Or.inr (Or.inr h)
    | resp code body =>
      dsimp only
      by_cases hs : isSuccessCode code = true
      · rw [if_pos hs]
        exact Or.inr (Or.inl rfl)
      · rw [if_neg hs]
        by_cases h5 : 500 ≤ code
        · rw [if_pos h5]
          exact ih (attempt + 1) _
        · rw [if_neg h5]
          exact Or.inr (Or.inr rfl)

/-- C3: webhook delivery retry bound. For an endpoint whose every POST
attempt returns HTTP 503, `_deliver` makes exactly `retry_count` attempts
and records terminal status `failed`; when the first attempt returns
HTTP 400 (a non-retryable client error) exactly one attempt is made and
the status is `failed`; for every sequence of outcomes the recorded
attempts never exceed `retry_count`, the recorded status is terminal
(`success` or `failed`), and the record is appended to the delivery
log. -/
theorem deliver_retry_bound (w : WebhookConfig) (S : Nat)
    (body : Nat → String) (b : String) (rest resp : Nat → HttpResult)
    (ds : List WebhookDelivery) (et : String) (now : Int) :
    ((deliver w (fun i => .resp 503 (body i)) true ds et now).1.attempts
        = w.retry_count
      ∧ (deliver w (fun i => .resp 503 (body i)) true ds et now).1.status
        = "failed")
    ∧ ((deliver { w with retry_count := S + 1 }
          (fun i => if i = 0 then .resp 400 b else rest i) true ds et now).1.attempts
        = 1
      ∧ (deliver { w with retry_count := S + 1 }
          (fun i => if i = 0 then .resp 400 b else rest i) true ds et now).1.status
        = "failed")
    ∧ (deliver w resp true ds et now).1.attempts ≤ w.retry_count
    ∧ ((deliver w resp true ds et now).1.status = "success"
        ∨ (deliver w resp true ds et now).1.status = "failed")
    ∧ (deliver w resp true ds et now).2
        = ds ++ [(deliver w resp true ds et now).1] := by
  refine ⟨⟨?_, ?_⟩, ⟨?_, ?_⟩, ?_, ?_, ?_⟩
  · simp only [deliver, Bool.not_true, Bool.false_eq_true, if_false]
    have h := deliver_loop_all_503 body now w.retry_count 0
      { id := "del_" ++ toString now, webhook_id := w.id, event_type := et
        status := "pending", created_at := now }
    rw [show (if (deliver_loop (fun i => HttpResult.resp 503 (body i)) now 0
        w.retry_count
        { id := "del_" ++ toString now, webhook_id := w.id, event_type := et
          status := "pending", created_at := now }).status == "pending" then _
        else _) = _ from if_pos (by rw [h.1]; rfl)]
    rw [h.2]
    cases hr : w.retry_count <;> simp
  · simp only [deliver, Bool.not_true, Bool.false_eq_true, if_false]
    have h := deliver_loop_all_503 body now w.retry_count 0
      { id := "del_" ++ toString now, webhook_id := w.id, event_type := et
        status := "pending", created_at := now }
    rw [show (if (deliver_loop (fun i => HttpResult.resp 503 (body i)) now 0
        w.retry_count
        { id := "del_" ++ toString now, webhook_id := w.id, event_type := et
          status := "pending", created_at := now }).status == "pending" then _
        else _) = _ from if_pos (by rw [h.1]; rfl)]
  · simp [deliver, deliver_loop, isSuccessCode]
  · simp [deliver, deliver_loop, isSuccessCode]
  · simp only [deliver, Bool.not_true, Bool.false_eq_true, if_false]
    have h := deliver_loop_attempts_le resp now w.retry_count 0
      { id := "del_" ++ toString now, webhook_id := w.id, event_type := et
        status := "pending", created_at := now } (by simp)
    split <;> simpa using h
  · simp only [deliver, Bool.not_true, Bool.false_eq_true, if_false]
    rcases deliver_loop_status_cases resp now w.retry_count 0
      { id := "del_" ++ toString now, webhook_id := w.id, event_type := et
        status := "pending", created_at := now } with h | h | h
    · rw [show (if (deliver_loop resp now 0 w.retry_count
          { id := "del_" ++ toString now, webhook_id := w.id, event_type := et
            status := "pending", created_at := now }).status == "pending" then _
          else _) = _ from if_pos (by rw [h]; rfl)]
      exact Or.inr rfl
    · rw [show (if (deliver_loop resp now 0 w.retry_count
          { id := "del_" ++ toString now, webhook_id := w.id, event_type := et
            status := "pending", created_at := now }).status == "pending" then _
          else _) = _ from if_neg (by rw [h]; simp)]
      exact Or.inl h
    · rw [show (if (deliver_loop resp now 0 w.retry_count
          { id := "del_" ++ toString now, webhook_id := w.id, event_type := et
            status := "pending", created_at := now }).status == "pending" then _
          else _) = _ from if_neg (by rw [h]; simp)]
      exact Or.inr h
  · rfl

/-! ## Claim C10 -/

/-- Concrete delivery record used in the C10 counterexample. -/
def cexDelivery : WebhookDelivery :=
  { id := "d1", webhook_id := "wh1", event_type := "alert.created"
    status := "success" }

/-- C10 counterexample: with `limit = 0` the slice `results[-0:]` returns
the whole matching list instead of the last 0 records, and a supplied
empty-string `webhook_id` filter is falsy in Python, so it is skipped and
a record with a different `webhook_id` is returned anyway. -/
theorem get_deliveries_limit_zero_cex :
    get_deliveries [cexDelivery] none none 0 = [cexDelivery]
    ∧ get_deliveries [cexDelivery] (some "") none 100 = [cexDelivery]
    ∧ cexDelivery.webhook_id = "wh1" := by
  refine ⟨rfl, rfl, rfl⟩

/-- C10 (amended): for every delivery log and every combination of the
optional filters, provided `limit ≥ 1` and any supplied filter value is a
non-empty string, `get_deliveries` returns exactly the last
`min(limit, matches)` records matching all supplied filters, in original
append order, and never fails; with `limit = 0` it returns all matching
records, and an empty-string filter is treated as absent (see the
counterexample). -/
theorem get_deliveries_spec (ds : List WebhookDelivery)
    (wid st : Option String) (k : Nat)
    (hw : wid ≠ some "") (hs : st ≠ some "") :
    get_deliveries ds wid st (k + 1)
        = (ds.filter (matches_delivery wid st)).drop
            ((ds.filter (matches_delivery wid st)).length - (k + 1))
    ∧ (get_deliveries ds wid st (k + 1)).length
        = min (ds.filter (matches_delivery wid st)).length (k + 1) := by
  have hslice : ∀ (r : List WebhookDelivery),
      pySliceLast (k + 1) r = r.drop (r.length - (k + 1)) := fun r => by
    rw [pySliceLast, if_neg (Nat.succ_ne_zero k)]
  have hlen : ∀ (r q : List WebhookDelivery),
      r = q.drop (q.length - (k + 1)) → r.length = min q.length (k + 1) := by
    intro r q h
    rw [h, List.length_drop]
    omega
  rcases wid with _ | w <;> rcases st with _ | s
  · have hq : ds.filter (matches_delivery none none) = ds := by
      have h1 : ds.filter (matches_delivery none none)
          = ds.filter (fun _ => true) :=
        List.filter_congr fun d _ => by simp [matches_delivery]
      rw [h1, List.filter_true]
    have hmain : get_deliveries ds none none (k + 1)
        = (ds.filter (matches_delivery none none)).drop
            ((ds.filter (matches_delivery none none)).length - (k + 1)) := by
      simp only [get_deliveries]
      rw [hslice, hq]
    exact ⟨hmain, hlen _ _ hmain⟩
  · have hs' : s ≠ "" := by simpa using hs
    have hq : ds.filter (matches_delivery none (some s))
        = ds.filter (fun d => d.status == s) :=
      List.filter_congr fun d _ => by simp [matches_delivery]
    have hmain : get_deliveries ds none (some s) (k + 1)
        = (ds.filter (matches_delivery none (some s))).drop
            ((ds.filter (matches_delivery none (some s))).length - (k + 1)) := by
      simp only [get_deliveries]
      rw [if_pos hs', hslice, hq]
    exact ⟨hmain, hlen _ _ hmain⟩
  · have hw' : w ≠ "" := by simpa using hw
    have hq : ds.filter (matches_delivery (some w) none)
        = ds.filter (fun d => d.webhook_id == w) :=
      List.filter_congr fun d _ => by simp [matches_delivery]
    have hmain : get_deliveries ds (some w) none (k + 1)
        = (ds.filter (matches_delivery (some w) none)).drop
            ((ds.filter (matches_delivery (some w) none)).length - (k + 1)) := by
      simp only [get_deliveries]
      rw [if_pos hw', hslice, hq]
    exact ⟨hmain, hlen _ _ hmain⟩
  · have hw' : w ≠ "" := by simpa using hw
    have hs' : s ≠ "" := by simpa using hs
    have hq : ds.filter (matches_delivery (some w) (some s))
        = ds.filter (fun d => (d.status == s) && (d.webhook_id == w)) :=
      List.filter_congr fun d _ => by simp [matches_delivery, Bool.and_comm]
    have hmain : get_deliveries ds (some w) (some s) (k + 1)
        = (ds.filter (matches_delivery (some w) (some s))).drop
            ((ds.filter (matches_delivery (some w) (some s))).length - (k + 1)) := by
      simp only [get_deliveries]
      rw [if_pos hw', if_pos hs', List.filter_filter, hslice, hq]
    exact ⟨hmain, hlen _ _ hmain⟩

/-- C10 witness: on a one-record log with no filters and `limit = 1`, the
query returns that record and the length matches `min(1, 1)`. -/
theorem get_deliveries_spec_witness :
    get_deliveries [cexDelivery] none none 1 = [cexDelivery]
    ∧ (get_deliveries [cexDelivery] none none 1).length = 1 := by
  have h := get_deliveries_spec [cexDelivery] none none 0
    (by simp) (by simp)
  refine ⟨?_, ?_⟩
  · rw [h.1]; rfl
  · rw [h.2]; rfl

/-! ## Claim C9 -/

/-- C9: the drift ingestion gate of `EventMonitor.on_drift_detected` with
the default threshold `0.5`. A `drift_result` with a qualifying score
(`0.9 ≥ 0.5`) and an empty `drifted_features` list makes the source raise
`IndexError` at `drifted[0]` instead of forwarding — the function is not
total. With a non-empty list the same score forwards the observation, and
a non-qualifying result (`0.2`, no drifted features) returns without
effect. -/
theorem on_drift_detected_empty_features :
    on_drift_detected (1 / 2)
        { overall_drift_score := some (9 / 10), drifted_features := some [] }
      = Except.error "IndexError: list index out of range"
    ∧ on_drift_detected (1 / 2)
        { overall_drift_score := some (9 / 10)
          drifted_features := some [DriftEntry.fstr "temperature"] }
      = Except.ok (some { drift_score := 9 / 10
                          drifted_features := [DriftEntry.fstr "temperature"] })
    ∧ on_drift_detected (1 / 2)
        { overall_drift_score := some (2 / 10), drifted_features := some [] }
      = Except.ok none := by
  refine ⟨?_, ?_, ?_⟩ <;>
    simp [on_drift_detected, entry_feature] <;> norm_num
